import Mathlib

/-!
Shallow embedding of the CloudFront filters and actions of
`src/c7n/resources/cloudfront.py` (cloud-custodian), together with proofs
about the claims of the specification: the `waf-enabled` filter
(`IsWafEnabled.process`), the `check-s3-origin` filter
(`CheckS3Origin.process`), and the `set-waf`, `disable` and `set-protocols`
actions (`SetWaf.process`, `DistributionDisableAction`,
`DistributionSSLAction`).

Python dictionaries with string keys are modelled as association lists with
last-wins insertion (`dinsert`); a missing key is `Option.none`; Python
truthiness of an optional string (`None` and `""` are falsy) is `truthy`.
Python exceptions are modelled with `PyErr`; a function that can raise
returns `Except PyErr _` or pairs its event trace with `Option PyErr`.
The remote CloudFront / S3 services are modelled as a `Client` record of
response functions; every remote call made by an action is recorded as an
`Event` so that fetch/write ordering and the version token (`ETag`) passed
on each write can be reasoned about.
-/

set_option autoImplicit false

namespace CloudFront

/-- Python exceptions raised by the embedded code: `KeyError` from `d[k]` on a
missing key, `ValueError` from the explicit raises, and `ClientError` (with
its error code) from remote calls. -/
inductive PyErr where
  | KeyError : String → PyErr
  | ValueError : String → PyErr
  | ClientError : String → PyErr
  deriving Repr, DecidableEq

/-- Truthiness of an optional string value as Python sees `d.get(k)`:
a missing key (`None`) and the empty string are falsy. -/
def truthy : Option String → Bool
  | none => false
  | some s => s ≠ ""

/-- Insert into a string-keyed dict, replacing the value when the key exists
(Python dict semantics: later assignments win, insertion order kept). -/
def dinsert (m : List (String × String)) (k v : String) : List (String × String) :=
  if m.any (fun p => p.1 = k) then
    m.map (fun p => if p.1 = k then (k, v) else p)
  else
    m ++ [(k, v)]

/-- Python `m.get(k)` on a dict: `some` value when the key is present. -/
def dget (m : List (String × String)) (k : String) : Option String :=
  (m.find? (fun p => p.1 = k)).map Prod.snd

/-- Python `m.get(k, k)`: lookup with the key itself as default, the lookup used for
`waf_name_id_map.get(target_acl, target_acl)`. -/
def dgetD (m : List (String × String)) (k : String) : String :=
  (dget m k).getD k

/-- Python `m.values()` of a dict. -/
def dvalues (m : List (String × String)) : List String :=
  m.map Prod.snd

/-- A WAF web ACL resource as returned by the `waf` resource manager:
only its `Name` and `WebACLId` attributes are consumed. -/
structure Waf where
  Name : String
  WebACLId : String
  deriving Repr, DecidableEq

/-- The comprehension building the name → identifier map
built by both `IsWafEnabled.process` and `SetWaf.process`. -/
def waf_name_id_map (wafs : List Waf) : List (String × String) :=
  wafs.foldl (fun m w => dinsert m w.Name w.WebACLId) []

/-- An origin entry of a distribution snapshot (`r['Origins']['Items']`):
whether it carries an `S3OriginConfig` key, and its `DomainName`. -/
structure Origin where
  hasS3OriginConfig : Bool
  DomainName : String
  deriving Repr, DecidableEq

/-- A CloudFront distribution snapshot as supplied by resource enumeration.
`WebACLId = none` models a snapshot that lacks the `'WebACLId'` key
entirely, `some ""` a present-but-empty association.  `c7nS3Origin` models
the `'c7n:s3-origin'` marker key written by `CheckS3Origin`. -/
structure Resource where
  Id : String
  ARN : String
  WebACLId : Option String
  Origins : List Origin
  c7nS3Origin : Bool
  deriving Repr, DecidableEq

/-! ### IsWafEnabled (`waf-enabled` filter), cloudfront.py lines 150-183 -/

/-- Embeds `target_acl_id = waf_name_id_map.get(target_acl, target_acl)` where
`target_acl = self.data.get('web-acl')` may be absent (`none`).  In Python,
`d.get(None, None)` is `None`, so an absent policy value stays `none`. -/
def resolveTarget (m : List (String × String)) (webAcl : Option String) :
    Option String :=
  webAcl.map (fun t => dgetD m t)

/-- One iteration of the `for r in resources` loop of
`IsWafEnabled.process`: which of the four `if/elif` branches appends `r`.
Branches three and four index `r['WebACLId']` directly and raise `KeyError`
when the snapshot lacks the key; Python's `and` short-circuits, so the
indexing only happens when `state`/`not state` and the truthiness of
`target_acl_id` allow the branch to be reached. -/
def iwBranch (state : Bool) (tid : Option String) (r : Resource) :
    Except PyErr Bool :=
  if state ∧ tid = none ∧ truthy r.WebACLId then pure true
  else if ¬ state ∧ tid = none ∧ ¬ truthy r.WebACLId then pure true
  else if state ∧ truthy tid then
    match r.WebACLId with
    | none => throw (PyErr.KeyError "WebACLId")
    | some w => pure (w = tid.getD "")
  else if ¬ state ∧ truthy tid then
    match r.WebACLId with
    | none => throw (PyErr.KeyError "WebACLId")
    | some w => pure (w ≠ tid.getD "")
  else pure false

/-- The `for r in resources` loop of `IsWafEnabled.process`, accumulating
`results`; an exception raised at one resource propagates and discards the
whole result, as in Python. -/
def IsWafEnabled_loop (state : Bool) (tid : Option String) :
    List Resource → Except PyErr (List Resource)
  | [] => pure []
  | r :: rs => do
    let b ← iwBranch state tid r
    let rest ← IsWafEnabled_loop state tid rs
    pure (if b then r :: rest else rest)

/-- Embeds `IsWafEnabled.process` (lines 162-183): build the name → id map, resolve
`web-acl`, raise `ValueError` when a truthy resolved id is not among the
map's values, then filter the resources through the four-branch test.
`state = self.data.get('state', False)` is passed already defaulted. -/
def IsWafEnabled_process (wafs : List Waf) (webAcl : Option String)
    (state : Bool) (resources : List Resource) :
    Except PyErr (List Resource) :=
  let m := waf_name_id_map wafs
  let tid := resolveTarget m webAcl
  if truthy tid ∧ ¬ (tid.getD "") ∈ dvalues m then
    throw (PyErr.ValueError ("invalid web acl: " ++ tid.getD ""))
  else
    IsWafEnabled_loop state tid resources

/-! ### CheckS3Origin (`check-s3-origin` filter), cloudfront.py lines 186-243 -/

/-- The outcome of `client.get_bucket_acl(Bucket=b)`: success returns the
bucket owner's canonical id (`b['Owner']['ID']`); the `ClientError` cases
are distinguished by their error code. -/
inductive AclRes where
  | ok : String → AclRes
  | accessDenied : AclRes
  | noSuchBucket : AclRes
  | otherErr : String → AclRes
  deriving Repr, DecidableEq

/-- The characters before the first `'.'` (all of them when there is
none). -/
def takeUntilDot : List Char → List Char
  | [] => []
  | c :: cs => if c = '.' then [] else c :: takeUntilDot cs

/-- Embeds `x['DomainName'].split('.', 1)[0]`: the bucket name is everything before
the first dot (the whole string when there is none). -/
def targetBucket (domain : String) : String :=
  String.mk (takeUntilDot domain.data)

/-- Is this origin counted by `CheckS3Origin` (it has an `S3OriginConfig`,
`get_bucket_acl` succeeds, and — when the accounts list is non-empty — the
owner is in the list)?  Mirrors the body of the inner loop of
`CheckS3Origin.process` on the non-raising paths. -/
def originPasses (s3 : String → AclRes) (accounts : List String)
    (o : Origin) : Bool :=
  o.hasS3OriginConfig &&
    match s3 (targetBucket o.DomainName) with
    | AclRes.ok owner => ! (decide (accounts ≠ [] ∧ owner ∉ accounts))
    | _ => false

/-- Does this origin make `CheckS3Origin.process` re-raise (its bucket check
fails with an error code other than `AccessDenied`/`NoSuchBucket`)? -/
def originHardFails (s3 : String → AclRes) (o : Origin) : Bool :=
  o.hasS3OriginConfig &&
    match s3 (targetBucket o.DomainName) with
    | AclRes.otherErr _ => true
    | _ => false

/-- The inner `for x in r['Origins']['Items']` loop of
`CheckS3Origin.process`, counting how many times `results.append(r)` runs
for this resource: once per origin with an `S3OriginConfig` whose bucket
exists and (when an accounts list is supplied and non-empty) whose owner is
in the list; `AccessDenied` and `NoSuchBucket` are logged and skipped; any
other `ClientError` is re-raised. -/
def cs3CountOrigins (s3 : String → AclRes) (accounts : List String) :
    List Origin → Except PyErr Nat
  | [] => pure 0
  | o :: os =>
    if o.hasS3OriginConfig then
      match s3 (targetBucket o.DomainName) with
      | AclRes.accessDenied => cs3CountOrigins s3 accounts os
      | AclRes.noSuchBucket => cs3CountOrigins s3 accounts os
      | AclRes.otherErr c => throw (PyErr.ClientError c)
      | AclRes.ok owner =>
        if accounts ≠ [] ∧ owner ∉ accounts then
          cs3CountOrigins s3 accounts os
        else do
          let n ← cs3CountOrigins s3 accounts os
          pure (n + 1)
    else cs3CountOrigins s3 accounts os

/-- Embeds `CheckS3Origin.process` (lines 211-243): for every resource, every
`S3OriginConfig` origin that passes the existence-and-ownership check first
sets `r['c7n:s3-origin'] = True` and then appends `r` to `results` — once
per passing origin.  An exception raised at any origin propagates and the
whole filter pass fails.  The `accounts` set from
`ValuesFrom(...).get_values()` and the S3 client are parameters. -/
def CheckS3Origin_process (s3 : String → AclRes) (accounts : List String) :
    List Resource → Except PyErr (List Resource)
  | [] => pure []
  | r :: rs => do
    let n ← cs3CountOrigins s3 accounts r.Origins
    let rest ← CheckS3Origin_process s3 accounts rs
    pure (List.replicate n { r with c7nS3Origin := true } ++ rest)

/-! ### The remote-client model shared by the actions -/

/-- The `DefaultCacheBehavior` / `CacheBehaviors.Items[*]` entries of a
distribution configuration: only `ViewerProtocolPolicy` is touched. -/
structure CacheBehavior where
  ViewerProtocolPolicy : String
  deriving Repr, DecidableEq

/-- The `CustomOriginConfig` of a configuration origin, as touched by
`set-protocols`. -/
structure CustomOriginConfig where
  OriginProtocolPolicy : String
  OriginSslProtocolsItems : List String
  OriginSslProtocolsQuantity : Nat
  deriving Repr, DecidableEq

/-- An origin entry of the distribution configuration document
(`dc['Origins']['Items'][*]`): `none` models an absent/falsy
`CustomOriginConfig`. -/
structure COrigin where
  CustomOriginConfig : Option CustomOriginConfig
  deriving Repr, DecidableEq

/-- The `DistributionConfig` document returned by
`get_distribution_config`, restricted to the fields the actions read or
patch. -/
structure DistConfig where
  WebACLId : Option String
  Enabled : Bool
  CacheBehaviorsItems : List CacheBehavior
  DefaultCacheBehavior : CacheBehavior
  OriginsItems : List COrigin
  deriving Repr, DecidableEq

/-- A remote call made by an action: `fetch id etag` records a
`get_distribution_config` call and the `ETag` it returned; `write id dc
ifMatch` records an `update_distribution` attempt with the document and the
`IfMatch` token it submitted. -/
inductive Event where
  | fetch : String → String → Event
  | write : String → DistConfig → String → Event
  deriving Repr, DecidableEq

/-- The distribution id an event concerns. -/
def Event.id : Event → String
  | Event.fetch i _ => i
  | Event.write i _ _ => i

/-- The outcome the remote service gives one `update_distribution` call:
success, or a `ClientError` with the given code (`"Throttling"`,
`"PreconditionFailed"` for a version mismatch, ...). -/
inductive WriteRes where
  | ok : WriteRes
  | err : String → WriteRes
  deriving Repr, DecidableEq

/-- The remote CloudFront service as the actions see it:
`remote id = some (config, etag)` is what `get_distribution_config(Id=id)`
returns (`none` models a fetch that raises), and `writeRes id n` is the
outcome of the `n`-th `update_distribution` attempt for `id` within one
action invocation. -/
structure Client where
  remote : String → Option (DistConfig × String)
  writeRes : String → Nat → WriteRes

/-! ### SetWaf (`set-waf` action), cloudfront.py lines 246-281 -/

/-- Modelled from the spec: the retry budget of `get_retry` (`c7n.utils`,
not under `src/`) — "Retryable errors are retried with bounded attempts and
increasing backoff; exhausting the attempt budget converts the error into a
TerminalFailure." -/
def max_attempts : Nat := 5

/-- Prepend one recorded remote call to a trace/exception pair. -/
def econs (e : Event) : List Event × Option PyErr → List Event × Option PyErr
  | (evs, res) => (e :: evs, res)

/-- Modelled from the spec: `get_retry(('Throttling',))` of `c7n.utils`
(not under `src/`) wrapping one remote write — "Classifies error codes into
a retryable set (throttling-class conditions) vs. everything else
(immediately terminal). Retryable errors are retried with bounded attempts
and increasing backoff; exhausting the attempt budget converts the error
into a TerminalFailure."  Every attempt submits the same document and the
same `IfMatch` token and is recorded as a `write` event; a non-retryable
error code is raised at once. -/
def retryWrite (cl : Client) (retryable : List String) (id : String)
    (dc : DistConfig) (etag : String) :
    Nat → Nat → List Event × Option PyErr
  | 0, _ => ([], some (PyErr.ClientError "RetryAttemptsExceeded"))
  | fuel + 1, attempt =>
    econs (Event.write id dc etag) <|
      match cl.writeRes id attempt with
      | WriteRes.ok => ([], none)
      | WriteRes.err code =>
        if code ∈ retryable then
          retryWrite cl retryable id dc etag fuel (attempt + 1)
        else ([], some (PyErr.ClientError code))

/-- The skip tests of the `for r in resources` loop of `SetWaf.process`
(lines 272-275): `continue` when the snapshot has a truthy `WebACLId` and
`force` is not set, or when the snapshot's `WebACLId` equals the target id
(in Python, `None == target_acl_id` is `False`). -/
def setWafSkips (tid : String) (force : Bool) (r : Resource) : Bool :=
  (truthy r.WebACLId && !force) || r.WebACLId == some tid

/-- The body of the `for r in resources` loop of `SetWaf.process` (lines
271-281) for one resource: skip, or fetch the current configuration and
`ETag`, set `config['WebACLId']` to the target id, and write back through
the `Throttling`-only retry wrapper with `IfMatch` set to the fetched
`ETag`.  Returns the remote calls made and the exception, if one escapes. -/
def SetWaf_processOne (cl : Client) (tid : String) (force : Bool)
    (r : Resource) : List Event × Option PyErr :=
  if setWafSkips tid force r then ([], none)
  else
    match cl.remote r.Id with
    | none => ([], some (PyErr.ClientError "NoSuchDistribution"))
    | some (config, etag) =>
      let patched := { config with WebACLId := some tid }
      econs (Event.fetch r.Id etag) <|
        retryWrite cl ["Throttling"] r.Id patched etag max_attempts 0

/-- The `for r in resources` loop of `SetWaf.process`: resources are
processed in order and an exception raised at one resource propagates,
abandoning the rest of the list. -/
def SetWaf_loop (cl : Client) (tid : String) (force : Bool) :
    List Resource → List Event × Option PyErr
  | [] => ([], none)
  | r :: rs =>
    match SetWaf_processOne cl tid force r with
    | (evs, some e) => (evs, some e)
    | (evs, none) =>
      let (evs2, res2) := SetWaf_loop cl tid force rs
      (evs ++ evs2, res2)

/-- Embeds `SetWaf.process` (lines 258-281): build the WAF name → id map, resolve
`web-acl` with the input itself as fallback, raise `ValueError` when the
resolved id is not among the map's values (an absent `web-acl` resolves to
`None`, which is never among the string values), then run the mutation
loop. -/
def SetWaf_process (cl : Client) (wafs : List Waf) (webAcl : Option String)
    (force : Bool) (resources : List Resource) :
    List Event × Option PyErr :=
  let m := waf_name_id_map wafs
  match webAcl with
  | none => ([], some (PyErr.ValueError "invalid web acl: None"))
  | some t =>
    let tid := dgetD m t
    if tid ∈ dvalues m then SetWaf_loop cl tid force resources
    else ([], some (PyErr.ValueError ("invalid web acl: " ++ tid)))

/-! ### DistributionDisableAction (`disable`), cloudfront.py lines 284-327 -/

/-- The per-resource outcome observable from a `disable` / `set-protocols`
invocation: the distribution was updated, or the caught exception was
logged as a warning and the resource abandoned. -/
inductive Outcome where
  | mutated : Outcome
  | failed : Outcome
  deriving Repr, DecidableEq

/-- The body of the `try` block of
`DistributionDisableAction.process_distribution` (lines 315-322): fetch the
configuration and `ETag`, set `Enabled` to `False`, and call
`update_distribution` with `IfMatch` set to that same `ETag` (no retry
wrapper). -/
def Disable_fetchWrite (cl : Client) (r : Resource) :
    List Event × Option PyErr :=
  match cl.remote r.Id with
  | none => ([], some (PyErr.ClientError "NoSuchDistribution"))
  | some (config, etag) =>
    let patched := { config with Enabled := false }
    econs (Event.fetch r.Id etag) <|
      match cl.writeRes r.Id 0 with
      | WriteRes.ok => ([Event.write r.Id patched etag], none)
      | WriteRes.err code =>
        ([Event.write r.Id patched etag], some (PyErr.ClientError code))

/-- Embeds `DistributionDisableAction.process_distribution` (lines 311-327): the
`except Exception` clause catches any exception from the fetch or the
write, logs a warning, and returns — the exception never escapes. -/
def Disable_processOne (cl : Client) (r : Resource) : List Event × Outcome :=
  match Disable_fetchWrite cl r with
  | (evs, none) => (evs, Outcome.mutated)
  | (evs, some _) => (evs, Outcome.failed)

/-- Embeds `DistributionDisableAction.process` (lines 307-309): map
`process_distribution` over the distributions with a worker pool; every
distribution is submitted, each task's exceptions are swallowed inside
`process_distribution`, and the call itself never raises. -/
def Disable_process (cl : Client) : List Resource → List Event × List Outcome
  | [] => ([], [])
  | r :: rs =>
    ((Disable_processOne cl r).1 ++ (Disable_process cl rs).1,
     (Disable_processOne cl r).2 :: (Disable_process cl rs).2)

/-! ### DistributionSSLAction (`set-protocols`), cloudfront.py lines 376-460 -/

/-- The optional policy fields of `set-protocols`, read with
`self.data.get(key, current_value)`. -/
structure SSLData where
  ViewerProtocolPolicy : Option String
  OriginProtocolPolicy : Option String
  OriginSslProtocols : Option (List String)
  deriving Repr, DecidableEq

/-- The in-place patch of the fetched configuration performed by
`DistributionSSLAction.process_distribution` (lines 430-449): every cache
behavior's `ViewerProtocolPolicy` (items and default) is overwritten when
the policy supplies one; every origin with a truthy `CustomOriginConfig`
has its `OriginProtocolPolicy` and `OriginSslProtocols.Items` overwritten
when supplied, and `OriginSslProtocols.Quantity` recomputed as the length
of the resulting items. -/
def sslTransform (d : SSLData) (dc : DistConfig) : DistConfig :=
  { dc with
    CacheBehaviorsItems := dc.CacheBehaviorsItems.map (fun it =>
      { it with ViewerProtocolPolicy :=
          d.ViewerProtocolPolicy.getD it.ViewerProtocolPolicy }),
    DefaultCacheBehavior :=
      { dc.DefaultCacheBehavior with ViewerProtocolPolicy :=
          (d.ViewerProtocolPolicy.getD
            dc.DefaultCacheBehavior.ViewerProtocolPolicy) },
    OriginsItems := dc.OriginsItems.map (fun o =>
      match o.CustomOriginConfig with
      | none => o
      | some c =>
        let items := d.OriginSslProtocols.getD c.OriginSslProtocolsItems
        let c2 : CustomOriginConfig :=
          { OriginProtocolPolicy :=
              (d.OriginProtocolPolicy.getD c.OriginProtocolPolicy),
            OriginSslProtocolsItems := items,
            OriginSslProtocolsQuantity := items.length }
        { o with CustomOriginConfig := some c2 }) }

/-- The body of the `try` block of
`DistributionSSLAction.process_distribution` (lines 425-455): fetch the
configuration, remember `etag = res['ETag']`, patch the document, and call
`update_distribution` with `IfMatch` set to that `etag`. -/
def SSL_fetchWrite (cl : Client) (d : SSLData) (r : Resource) :
    List Event × Option PyErr :=
  match cl.remote r.Id with
  | none => ([], some (PyErr.ClientError "NoSuchDistribution"))
  | some (dc, etag) =>
    let patched := sslTransform d dc
    econs (Event.fetch r.Id etag) <|
      match cl.writeRes r.Id 0 with
      | WriteRes.ok => ([Event.write r.Id patched etag], none)
      | WriteRes.err code =>
        ([Event.write r.Id patched etag], some (PyErr.ClientError code))

/-- Embeds `DistributionSSLAction.process_distribution` (lines 421-460): as for
`disable`, the `except Exception` clause logs any exception as a warning
and returns, so nothing escapes. -/
def SSL_processOne (cl : Client) (d : SSLData) (r : Resource) :
    List Event × Outcome :=
  match SSL_fetchWrite cl d r with
  | (evs, none) => (evs, Outcome.mutated)
  | (evs, some _) => (evs, Outcome.failed)

/-- Embeds `DistributionSSLAction.process` (lines 417-419): worker-pool map of
`process_distribution` over the distributions. -/
def SSL_process (cl : Client) (d : SSLData) :
    List Resource → List Event × List Outcome
  | [] => ([], [])
  | r :: rs =>
    ((SSL_processOne cl d r).1 ++ (SSL_process cl d rs).1,
     (SSL_processOne cl d r).2 :: (SSL_process cl d rs).2)

/-! ### The reference resolution shared by `SetWaf` / `IsWafEnabled` -/

/-- The resolve-and-validate step of `SetWaf.process` (lines 259-265) as a
standalone function on an already-built lookup table: `target_acl_id =
waf_name_id_map.get(x, x)`, raising `ValueError` when the result is not
among the table's values. -/
def resolve (m : List (String × String)) (x : String) : Except PyErr String :=
  let tid := dgetD m x
  if tid ∈ dvalues m then pure tid
  else throw (PyErr.ValueError ("invalid web acl: " ++ tid))

/-! ### Concrete fixtures used by witnesses and counterexamples -/

/-- The lookup table of the spec's reference-resolution test:
`{"acl-a": "id-123", "acl-b": "id-456"}`. -/
def exampleWafs : List Waf :=
  [{ Name := "acl-a", WebACLId := "id-123" },
   { Name := "acl-b", WebACLId := "id-456" }]

/-- A lookup table in which the string `"id-1"` is both a value (an
identifier) and a key (a name mapped to a different identifier). -/
def overlapWafs : List Waf :=
  [{ Name := "id-1", WebACLId := "id-2" },
   { Name := "b", WebACLId := "id-1" }]

/-- A minimal distribution configuration document. -/
def cfg0 : DistConfig :=
  { WebACLId := some "",
    Enabled := true,
    CacheBehaviorsItems := [],
    DefaultCacheBehavior := { ViewerProtocolPolicy := "allow-all" },
    OriginsItems := [] }

/-- A distribution snapshot whose `'WebACLId'` key is absent. -/
def res1 : Resource :=
  { Id := "d1", ARN := "arn:d1", WebACLId := none, Origins := [],
    c7nS3Origin := false }

/-! ### C4 — reference resolution -/

/-- A value read out of a dict is among the dict's values. -/
theorem dget_mem_dvalues (m : List (String × String)) (x v : String)
    (h : dget m x = some v) : v ∈ dvalues m := by
  unfold dget at h
  cases hf : m.find? (fun p => p.1 = x) with
  | none => rw [hf] at h; simp at h
  | some pr =>
    rw [hf] at h
    simp at h
    have hm := List.mem_of_find?_eq_some hf
    subst h
    exact List.mem_map_of_mem Prod.snd hm

/-- Propositional equality on `Except` results is decidable when it is on
both components, so that concrete runs can be checked by `decide`. -/
instance {ε α : Type} [DecidableEq ε] [DecidableEq α] :
    DecidableEq (Except ε α) := fun a b =>
  match a, b with
  | Except.ok x, Except.ok y => decidable_of_iff (x = y) (by simp)
  | Except.ok _, Except.error _ => isFalse (by simp)
  | Except.error _, Except.ok _ => isFalse (by simp)
  | Except.error e, Except.error f => decidable_of_iff (e = f) (by simp)

/-- C4, counterexample: in a table where `"id-1"` appears both as an
identifier (a value) and as a name (a key) mapped to `"id-2"`, `resolve`
does not return the input `"id-1"` unchanged even though it is in the
table's value set — the name lookup takes precedence. -/
theorem resolve_precedence_counterexample :
    "id-1" ∈ dvalues (waf_name_id_map overlapWafs) ∧
    resolve (waf_name_id_map overlapWafs) "id-1" = Except.ok "id-2" ∧
    resolve (waf_name_id_map overlapWafs) "id-1" ≠ Except.ok "id-1" := by
  decide

/-- C4, amended: `resolve` is a pure function of the table and the input
(hence deterministic); it returns the mapped identifier whenever the input
is a known name (regardless of whether the input is also a known
identifier), returns the input unchanged when the input is not a known
name but is a known identifier, and raises `ValueError` on its unresolved
value when the input is neither. -/
theorem resolve_name_precedence (m : List (String × String)) (x : String) :
    (∀ v, dget m x = some v → resolve m x = Except.ok v) ∧
    (dget m x = none → x ∈ dvalues m → resolve m x = Except.ok x) ∧
    (dget m x = none → x ∉ dvalues m →
      resolve m x = Except.error
        (PyErr.ValueError ("invalid web acl: " ++ x))) := by
  refine ⟨fun v h => ?_, fun h hv => ?_, fun h hv => ?_⟩
  · have hm : v ∈ dvalues m := dget_mem_dvalues m x v h
    unfold resolve dgetD
    rw [h]
    simp [hm]
    rfl
  · unfold resolve dgetD
    rw [h]
    simp [hv]
    rfl
  · unfold resolve dgetD
    rw [h]
    simp [hv]
    rfl

/-- C4, witness: the amended theorem evaluated on the spec's example table
`{"acl-a": "id-123", "acl-b": "id-456"}`. -/
theorem resolve_name_precedence_witness :
    resolve (waf_name_id_map exampleWafs) "acl-a" = Except.ok "id-123" ∧
    resolve (waf_name_id_map exampleWafs) "id-456" = Except.ok "id-456" ∧
    resolve (waf_name_id_map exampleWafs) "acl-z" =
      Except.error (PyErr.ValueError ("invalid web acl: " ++ "acl-z")) :=
  ⟨(resolve_name_precedence (waf_name_id_map exampleWafs) "acl-a").1
      "id-123" (by decide),
   (resolve_name_precedence (waf_name_id_map exampleWafs) "id-456").2.1
      (by decide) (by decide),
   (resolve_name_precedence (waf_name_id_map exampleWafs) "acl-z").2.2
      (by decide) (by decide)⟩

/-! ### C5 — unknown reference aborts before any write -/

/-- C5: when the supplied `web-acl` reference resolves to neither a known
name nor a known identifier (equivalently: its resolved value is not among
the table's values), `SetWaf.process` raises `ValueError` with an empty
remote-call trace — no resource is fetched or written.  An absent
`web-acl` likewise raises before any remote call. -/
theorem setwaf_unknown_reference_aborts (cl : Client) (wafs : List Waf)
    (force : Bool) (rs : List Resource) :
    SetWaf_process cl wafs none force rs
      = ([], some (PyErr.ValueError "invalid web acl: None")) ∧
    ∀ t, dgetD (waf_name_id_map wafs) t ∉ dvalues (waf_name_id_map wafs) →
      SetWaf_process cl wafs (some t) force rs =
        ([], some (PyErr.ValueError
          ("invalid web acl: " ++ dgetD (waf_name_id_map wafs) t))) := by
  refine ⟨rfl, fun t h => ?_⟩
  unfold SetWaf_process
  simp [h]

/-- A client that always fetches successfully and whose writes always
succeed. -/
def clOK : Client :=
  { remote := fun i => some (cfg0, "etag-" ++ i),
    writeRes := fun _ _ => WriteRes.ok }

/-- C5, witness: with the example table, the unknown reference `"acl-z"`
makes `SetWaf.process` fail with an empty trace even though a resource is
selected and the remote service would have accepted writes. -/
theorem setwaf_unknown_reference_aborts_witness :
    SetWaf_process clOK exampleWafs (some "acl-z") false [res1] =
      ([], some (PyErr.ValueError
        ("invalid web acl: " ++ dgetD (waf_name_id_map exampleWafs) "acl-z"))) :=
  (setwaf_unknown_reference_aborts clOK exampleWafs false [res1]).2
    "acl-z" (by decide)

/-! ### C1 — behaviour on a version-mismatch write failure -/

/-- Is this recorded remote call a configuration fetch? -/
def Event.isFetch : Event → Bool
  | Event.fetch _ _ => true
  | Event.write _ _ _ => false

/-- A client whose fetches succeed and whose every write is rejected with
the version-mismatch condition (`PreconditionFailed`). -/
def clConflict : Client :=
  { remote := fun i => some (cfg0, "etag-" ++ i),
    writeRes := fun _ _ => WriteRes.err "PreconditionFailed" }

/-- C1, counterexample: when the conditional write fails with the
version-mismatch condition, `SetWaf.process` performs exactly one fetch and
one write attempt — it does not restart at Fetch, re-read a fresh token, or
retry; the error simply propagates. -/
theorem conflict_no_refetch_counterexample :
    SetWaf_process clConflict exampleWafs (some "acl-a") false [res1] =
      ([Event.fetch "d1" "etag-d1",
        Event.write "d1" { cfg0 with WebACLId := some "id-123" } "etag-d1"],
       some (PyErr.ClientError "PreconditionFailed")) ∧
    (SetWaf_process clConflict exampleWafs (some "acl-a") false [res1]).1.countP
      Event.isFetch = 1 := by
  decide

/-- The wrapper `get_retry(('Throttling',))` re-raises a non-retryable error code on the
first attempt, after exactly one write attempt. -/
theorem retryWrite_nonretryable (cl : Client) (retryable : List String)
    (id : String) (dc : DistConfig) (etag : String) (fuel attempt : Nat)
    (code : String) (hw : cl.writeRes id attempt = WriteRes.err code)
    (hc : code ∉ retryable) (hf : fuel ≠ 0) :
    retryWrite cl retryable id dc etag fuel attempt =
      ([Event.write id dc etag], some (PyErr.ClientError code)) := by
  cases fuel with
  | zero => exact absurd rfl hf
  | succ n =>
    unfold retryWrite
    rw [hw]
    simp [hc, econs]

/-- C1, amended: on a version-mismatch (or any other non-`Throttling`) write
failure, no mutator restarts at Fetch: `SetWaf.process` makes exactly one
fetch and one write for the resource and lets the error escape (its retry
wrapper retries only `Throttling`), and
`DistributionDisableAction.process_distribution` makes exactly one fetch
and one write, catches the error and abandons the resource as failed. -/
theorem conflict_no_refetch (cl : Client) (tid : String) (force : Bool)
    (r : Resource) (dc : DistConfig) (etag code : String)
    (hremote : cl.remote r.Id = some (dc, etag))
    (hwrite : cl.writeRes r.Id 0 = WriteRes.err code)
    (hcode : code ≠ "Throttling")
    (hskip : setWafSkips tid force r = false) :
    SetWaf_processOne cl tid force r =
      ([Event.fetch r.Id etag,
        Event.write r.Id { dc with WebACLId := some tid } etag],
       some (PyErr.ClientError code)) ∧
    Disable_processOne cl r =
      ([Event.fetch r.Id etag,
        Event.write r.Id { dc with Enabled := false } etag],
       Outcome.failed) := by
  constructor
  · have hc : code ∉ (["Throttling"] : List String) := by simp [hcode]
    have hrw := retryWrite_nonretryable cl ["Throttling"] r.Id
      { dc with WebACLId := some tid } etag max_attempts 0 code hwrite hc
      (by decide)
    simp [SetWaf_processOne, hskip, hremote, hrw, econs]
  · simp [Disable_processOne, Disable_fetchWrite, hremote, hwrite, econs]

/-- C1, witness: the amended theorem evaluated on the always-conflicting
client and a concrete snapshot. -/
theorem conflict_no_refetch_witness :
    SetWaf_processOne clConflict "id-123" false res1 =
      ([Event.fetch "d1" "etag-d1",
        Event.write "d1" { cfg0 with WebACLId := some "id-123" } "etag-d1"],
       some (PyErr.ClientError "PreconditionFailed")) ∧
    Disable_processOne clConflict res1 =
      ([Event.fetch "d1" "etag-d1",
        Event.write "d1" { cfg0 with Enabled := false } "etag-d1"],
       Outcome.failed) :=
  conflict_no_refetch clConflict "id-123" false res1 cfg0 "etag-d1"
    "PreconditionFailed" (by decide) (by decide) (by decide) (by decide)

/-! ### C3 — which data the skip decisions read -/

/-- Unfolding lemma: prepending an event to a trace/exception pair. -/
theorem econs_def (e : Event) (p : List Event × Option PyErr) :
    econs e p = (e :: p.1, p.2) := by
  cases p
  rfl

/-- A client whose remote configuration currently carries the association
`"id-456"`; fetches and writes succeed. -/
def clFresh : Client :=
  { remote := fun i =>
      some ({ cfg0 with WebACLId := some "id-456" }, "etag-" ++ i),
    writeRes := fun _ _ => WriteRes.ok }

/-- A snapshot (obtained earlier, at enumeration time) claiming the
association is already `"id-123"`. -/
def rStale : Resource :=
  { Id := "d1", ARN := "arn:d1", WebACLId := some "id-123", Origins := [],
    c7nS3Origin := false }

/-- C3, counterexample: the target resolves to `"id-123"`; the stale
snapshot claims the resource already carries `"id-123"`, while the current
remote configuration carries `"id-456"`.  `SetWaf.process` skips the
resource with an empty remote-call trace: the idempotent-skip decision was
evaluated against the previously obtained snapshot — no configuration was
fetched in this invocation at all, and the resource is left not reflecting
the desired end-state. -/
theorem skip_uses_snapshot_counterexample :
    SetWaf_process clFresh exampleWafs (some "acl-a") false [rStale] =
      ([], none) ∧
    (clFresh.remote "d1").map (fun p => p.1.WebACLId) =
      some (some "id-456") ∧
    rStale.WebACLId = some "id-123" := by
  decide

/-- C3, amended: the idempotent skip decisions of `SetWaf.process` are
evaluated against the resource snapshot supplied to the action, never
against the configuration fetched in the same invocation: the invocation
makes no remote call at all exactly when the snapshot-only predicate
`setWafSkips` holds, and whether it skips is independent of the remote
state (the fetch happens only after the decision to mutate). -/
theorem skip_uses_snapshot (tid : String) (force : Bool) (r : Resource)
    (cl cl2 : Client) :
    (SetWaf_processOne cl tid force r = ([], none) ↔
      setWafSkips tid force r = true) ∧
    (SetWaf_processOne cl tid force r = ([], none) ↔
      SetWaf_processOne cl2 tid force r = ([], none)) := by
  have key : ∀ c : Client, SetWaf_processOne c tid force r = ([], none) ↔
      setWafSkips tid force r = true := by
    intro c
    unfold SetWaf_processOne
    cases hs : setWafSkips tid force r with
    | true => simp
    | false =>
      cases hr : c.remote r.Id with
      | none => simp
      | some p =>
        obtain ⟨dc, etag⟩ := p
        simp [econs_def]
  exact ⟨key cl, (key cl).trans (key cl2).symm⟩

/-- C3, witness: the amended theorem applied to the stale snapshot and the
fresh-remote client. -/
theorem skip_uses_snapshot_witness :
    SetWaf_processOne clFresh "id-123" false rStale = ([], none) :=
  ((skip_uses_snapshot "id-123" false rStale clFresh clOK).1).mpr (by decide)

/-! ### C2 — batch isolation -/

/-- A distribution snapshot with the given id, no association, no origins. -/
def mkRes (i : String) : Resource :=
  { Id := i, ARN := "arn:" ++ i, WebACLId := none, Origins := [],
    c7nS3Origin := false }

/-- The document `cfg0` with the association patched to the example target id, the
document `SetWaf` writes back in the concrete scenarios. -/
def cfgW : DistConfig := { cfg0 with WebACLId := some "id-123" }

/-- A client for which every fetch succeeds and exactly the writes to
distribution `"d3"` fail with a terminal (non-retryable) error. -/
def clBatch : Client :=
  { remote := fun i => some (cfg0, "etag-" ++ i),
    writeRes := fun i _ =>
      if i = "d3" then WriteRes.err "SomethingWeird" else WriteRes.ok }

/-- C2, counterexample: five resources, the write to resource #3 fails with
a terminal error.  `SetWaf.process` raises (the error escapes the batch
call) and resources #4 and #5 are never attempted — no remote call
mentions them — instead of the other four being mutated with one recorded
failure. -/
theorem batch_abort_counterexample :
    SetWaf_process clBatch exampleWafs (some "acl-a") false
        [mkRes "d1", mkRes "d2", mkRes "d3", mkRes "d4", mkRes "d5"] =
      ([Event.fetch "d1" "etag-d1", Event.write "d1" cfgW "etag-d1",
        Event.fetch "d2" "etag-d2", Event.write "d2" cfgW "etag-d2",
        Event.fetch "d3" "etag-d3", Event.write "d3" cfgW "etag-d3"],
       some (PyErr.ClientError "SomethingWeird")) ∧
    (SetWaf_process clBatch exampleWafs (some "acl-a") false
        [mkRes "d1", mkRes "d2", mkRes "d3", mkRes "d4", mkRes "d5"]).1.all
      (fun e => (Event.id e != "d4") && (Event.id e != "d5")) = true := by
  decide

/-- C2, amended: the `disable` and `set-protocols` batch calls attempt
every resource exactly once — the outcome list is positionally the
per-resource outcomes and the trace is the concatenation of the
per-resource traces, each depending only on its own resource — and the
batch call itself never raises (per-resource failures are recorded as
`failed`).  The `set-waf` batch loop, by contrast, stops at the first
resource whose mutation raises: that error becomes the result of the whole
batch call and the remaining resources are not attempted. -/
theorem batch_isolation (cl : Client) (d : SSLData) (rs : List Resource)
    (tid : String) (force : Bool) (r : Resource) (rest : List Resource) :
    (Disable_process cl rs).2 = rs.map (fun x => (Disable_processOne cl x).2) ∧
    (Disable_process cl rs).1 =
      rs.flatMap (fun x => (Disable_processOne cl x).1) ∧
    (SSL_process cl d rs).2 = rs.map (fun x => (SSL_processOne cl d x).2) ∧
    (∀ evs e, SetWaf_processOne cl tid force r = (evs, some e) →
      SetWaf_loop cl tid force (r :: rest) = (evs, some e)) := by
  refine ⟨?_, ?_, ?_, ?_⟩
  · induction rs with
    | nil => rfl
    | cons a as ih => simp [Disable_process, ih]
  · induction rs with
    | nil => rfl
    | cons a as ih => simp [Disable_process, ih]
  · induction rs with
    | nil => rfl
    | cons a as ih => simp [SSL_process, ih]
  · intro evs e h
    unfold SetWaf_loop
    rw [h]

/-- An empty `set-protocols` policy document. -/
def sslData0 : SSLData :=
  { ViewerProtocolPolicy := none, OriginProtocolPolicy := none,
    OriginSslProtocols := none }

/-- C2, witness: the amended theorem evaluated on the client that fails
exactly on `"d3"`: the `disable` batch reports `[mutated, failed]` without
raising, and the `set-waf` loop starting at `"d3"` stops there, leaving
`"d4"` unattempted. -/
theorem batch_isolation_witness :
    (Disable_process clBatch [mkRes "d1", mkRes "d3"]).2 =
      [Outcome.mutated, Outcome.failed] ∧
    SetWaf_loop clBatch "id-123" false [mkRes "d3", mkRes "d4"] =
      ([Event.fetch "d3" "etag-d3", Event.write "d3" cfgW "etag-d3"],
       some (PyErr.ClientError "SomethingWeird")) := by
  have h := batch_isolation clBatch sslData0 [mkRes "d1", mkRes "d3"]
    "id-123" false (mkRes "d3") [mkRes "d4"]
  refine ⟨?_, ?_⟩
  · rw [h.1]
    decide
  · exact h.2.2.2 _ _ (by decide)

/-! ### C8 — every write carries the token of its own invocation's fetch -/

/-- Shape of the retry wrapper's trace: every write attempt it makes is the
same event — same id, same document, same `IfMatch` token — and with a
positive budget at least one attempt is made. -/
theorem retryWrite_shape (cl : Client) (retryable : List String)
    (id : String) (dc : DistConfig) (etag : String) :
    ∀ fuel attempt, ∃ n res,
      retryWrite cl retryable id dc etag fuel attempt =
        (List.replicate n (Event.write id dc etag), res) ∧
      (fuel ≠ 0 → n ≠ 0) := by
  intro fuel
  induction fuel with
  | zero =>
    intro attempt
    exact ⟨0, some (PyErr.ClientError "RetryAttemptsExceeded"), rfl,
      fun h => absurd rfl h⟩
  | succ m ih =>
    intro attempt
    unfold retryWrite
    cases hw : cl.writeRes id attempt with
    | ok => exact ⟨1, none, by simp [econs_def], by simp⟩
    | err code =>
      by_cases hc : code ∈ retryable
      · obtain ⟨n, res, heq, _⟩ := ih (attempt + 1)
        refine ⟨n + 1, res, ?_, fun _ => by simp⟩
        simp [hc, econs_def, heq, List.replicate_succ]
      · exact ⟨1, some (PyErr.ClientError code), by simp [hc, econs_def],
          fun _ => by simp⟩

/-- The `disable` action's trace comes entirely from its fetch-write body;
the `except` clause changes only the reported outcome. -/
theorem Disable_processOne_fst (cl : Client) (r : Resource) :
    (Disable_processOne cl r).1 = (Disable_fetchWrite cl r).1 := by
  unfold Disable_processOne
  cases h : Disable_fetchWrite cl r with
  | mk evs res => cases res <;> simp

/-- The `set-protocols` action's trace comes entirely from its fetch-write
body. -/
theorem SSL_processOne_fst (cl : Client) (d : SSLData) (r : Resource) :
    (SSL_processOne cl d r).1 = (SSL_fetchWrite cl d r).1 := by
  unfold SSL_processOne
  cases h : SSL_fetchWrite cl d r with
  | mk evs res => cases res <;> simp

/-- C8: in each of the three mutators, an invocation that reaches the Write
step submits as `IfMatch` exactly the `ETag` returned by the fetch of that
same resource in that same invocation: the per-resource trace is either
empty (skip, or the fetch itself raised) or one fetch returning token
`etag` followed only by write attempts carrying that same `etag` — there
is never an intervening fetch between obtaining the token and a write. -/
theorem write_token_from_same_fetch (cl : Client) (tid : String)
    (force : Bool) (d : SSLData) (r : Resource) :
    ((SetWaf_processOne cl tid force r).1 = [] ∨
      ∃ etag dc n, (SetWaf_processOne cl tid force r).1 =
        Event.fetch r.Id etag ::
          List.replicate (n + 1) (Event.write r.Id dc etag)) ∧
    ((Disable_processOne cl r).1 = [] ∨
      ∃ etag dc, (Disable_processOne cl r).1 =
        [Event.fetch r.Id etag, Event.write r.Id dc etag]) ∧
    ((SSL_processOne cl d r).1 = [] ∨
      ∃ etag dc, (SSL_processOne cl d r).1 =
        [Event.fetch r.Id etag, Event.write r.Id dc etag]) := by
  refine ⟨?_, ?_, ?_⟩
  · unfold SetWaf_processOne
    cases hs : setWafSkips tid force r with
    | true => left; simp
    | false =>
      cases hr : cl.remote r.Id with
      | none => left; simp
      | some p =>
        obtain ⟨dc, etag⟩ := p
        right
        obtain ⟨n, res, heq, hn⟩ := retryWrite_shape cl ["Throttling"] r.Id
          { dc with WebACLId := some tid } etag max_attempts 0
        have hn0 : n ≠ 0 := hn (by decide)
        obtain ⟨m, rfl⟩ : ∃ m, n = m + 1 := ⟨n - 1, by omega⟩
        exact ⟨etag, { dc with WebACLId := some tid }, m,
          by simp [econs_def, heq]⟩
  · rw [Disable_processOne_fst]
    unfold Disable_fetchWrite
    cases hr : cl.remote r.Id with
    | none => left; simp
    | some p =>
      obtain ⟨dc, etag⟩ := p
      right
      cases hw : cl.writeRes r.Id 0 with
      | ok => exact ⟨etag, { dc with Enabled := false }, by simp [econs_def]⟩
      | err code =>
        exact ⟨etag, { dc with Enabled := false }, by simp [econs_def]⟩
  · rw [SSL_processOne_fst]
    unfold SSL_fetchWrite
    cases hr : cl.remote r.Id with
    | none => left; simp
    | some p =>
      obtain ⟨dc, etag⟩ := p
      right
      cases hw : cl.writeRes r.Id 0 with
      | ok => exact ⟨etag, sslTransform d dc, by simp [econs_def]⟩
      | err code => exact ⟨etag, sslTransform d dc, by simp [econs_def]⟩

/-! ### C6 / C10 — the `waf-enabled` truth table and its raising behaviour -/

/-- Branch value with `state=true` and no target: match on a truthy
(present, non-empty) association. -/
theorem iwBranch_true_none (r : Resource) :
    iwBranch true none r = Except.ok (truthy r.WebACLId) := by
  by_cases h : truthy r.WebACLId <;> simp [iwBranch, h] <;> rfl

/-- Branch value with `state=false` and no target: match on a falsy
(absent or empty) association. -/
theorem iwBranch_false_none (r : Resource) :
    iwBranch false none r = Except.ok (!truthy r.WebACLId) := by
  by_cases h : truthy r.WebACLId <;> simp [iwBranch, h] <;> rfl

/-- Branch value with an empty-string target: no branch fires (an empty
resolved target is falsy, so the equality branches are never reached). -/
theorem iwBranch_empty_target (state : Bool) (r : Resource) :
    iwBranch state (some "") r = Except.ok false := by
  cases state <;> simp [iwBranch, truthy] <;> rfl

/-- Branch value with a non-empty target on a snapshot that has the
association attribute: equality with the target (`state=true`) or
inequality (`state=false`). -/
theorem iwBranch_target (state : Bool) (tid : String) (ht : tid ≠ "")
    (r : Resource) (w : String) (hw : r.WebACLId = some w) :
    iwBranch state (some tid) r =
      Except.ok (if state then decide (r.WebACLId = some tid)
                 else decide (r.WebACLId ≠ some tid)) := by
  cases state <;> simp [iwBranch, truthy, ht, hw] <;> rfl

/-- The filter loop of `IsWafEnabled.process` computes `List.filter` of any
boolean predicate that the branch test agrees with on every resource of
the list. -/
theorem IsWafEnabled_loop_filter (state : Bool) (tid : Option String)
    (f : Resource → Bool) :
    ∀ rs : List Resource,
      (∀ r ∈ rs, iwBranch state tid r = Except.ok (f r)) →
      IsWafEnabled_loop state tid rs = Except.ok (rs.filter f)
  | [], _ => rfl
  | a :: as, h => by
    have ha : iwBranch state tid a = Except.ok (f a) :=
      h a (List.mem_cons_self a as)
    have has : IsWafEnabled_loop state tid as = Except.ok (as.filter f) :=
      IsWafEnabled_loop_filter state tid f as
        (fun r hr => h r (List.mem_cons_of_mem a hr))
    unfold IsWafEnabled_loop
    rw [ha, has]
    by_cases hfa : f a <;> simp [hfa, List.filter_cons] <;> rfl

/-- With no target the validation check is skipped and the process is just
the filter loop. -/
theorem IsWafEnabled_process_none (wafs : List Waf) (state : Bool)
    (rs : List Resource) :
    IsWafEnabled_process wafs none state rs =
      IsWafEnabled_loop state none rs := rfl

/-- The two target-free rows of the truth table, as the loop's filter. -/
theorem waf_enabled_none_rows (wafs : List Waf) (rs : List Resource) :
    IsWafEnabled_process wafs none true rs =
      Except.ok (rs.filter (fun r => truthy r.WebACLId)) ∧
    IsWafEnabled_process wafs none false rs =
      Except.ok (rs.filter (fun r => !truthy r.WebACLId)) := by
  constructor
  · rw [IsWafEnabled_process_none]
    exact IsWafEnabled_loop_filter true none _ rs
      (fun r _ => iwBranch_true_none r)
  · rw [IsWafEnabled_process_none]
    exact IsWafEnabled_loop_filter false none _ rs
      (fun r _ => iwBranch_false_none r)

/-- The two target-specified rows of the truth table, for a target whose
resolved identifier is non-empty and among the known values, on snapshots
carrying the association attribute. -/
theorem waf_enabled_target_rows (wafs : List Waf) (rs : List Resource)
    (t tid : String) (hres : dgetD (waf_name_id_map wafs) t = tid)
    (ht : tid ≠ "") (hmem : tid ∈ dvalues (waf_name_id_map wafs))
    (hkeys : ∀ r ∈ rs, r.WebACLId ≠ none) :
    IsWafEnabled_process wafs (some t) true rs =
      Except.ok (rs.filter (fun r => decide (r.WebACLId = some tid))) ∧
    IsWafEnabled_process wafs (some t) false rs =
      Except.ok (rs.filter (fun r => decide (r.WebACLId ≠ some tid))) := by
  have hproc : ∀ st : Bool, IsWafEnabled_process wafs (some t) st rs =
      IsWafEnabled_loop st (some tid) rs := by
    intro st
    unfold IsWafEnabled_process
    simp only [resolveTarget, Option.map_some']
    rw [hres]
    simp [truthy, ht, hmem]
  constructor
  · rw [hproc true]
    refine IsWafEnabled_loop_filter true (some tid) _ rs (fun r hr => ?_)
    obtain ⟨w, hw⟩ := Option.ne_none_iff_exists'.mp (hkeys r hr)
    simpa using iwBranch_target true tid ht r w hw
  · rw [hproc false]
    refine IsWafEnabled_loop_filter false (some tid) _ rs (fun r hr => ?_)
    obtain ⟨w, hw⟩ := Option.ne_none_iff_exists'.mp (hkeys r hr)
    simpa using iwBranch_target false tid ht r w hw

/-- C6: the truth table of the `waf-enabled` association-state predicate.
With no target, `state=true` selects exactly the resources with a
non-empty association and `state=false` exactly those with none (absent or
empty).  With a target that resolves to a non-empty identifier among the
known values, and on snapshots that carry the association attribute,
`state=true` selects exactly the resources whose association equals the
resolved identifier and `state=false` exactly those whose association
differs from it. -/
theorem waf_enabled_truth_table (wafs : List Waf) (rs : List Resource) :
    (IsWafEnabled_process wafs none true rs =
      Except.ok (rs.filter (fun r => truthy r.WebACLId))) ∧
    (IsWafEnabled_process wafs none false rs =
      Except.ok (rs.filter (fun r => !truthy r.WebACLId))) ∧
    (∀ t tid, dgetD (waf_name_id_map wafs) t = tid → tid ≠ "" →
      tid ∈ dvalues (waf_name_id_map wafs) →
      (∀ r ∈ rs, r.WebACLId ≠ none) →
      IsWafEnabled_process wafs (some t) true rs =
        Except.ok (rs.filter (fun r => decide (r.WebACLId = some tid))) ∧
      IsWafEnabled_process wafs (some t) false rs =
        Except.ok (rs.filter (fun r => decide (r.WebACLId ≠ some tid)))) :=
  ⟨(waf_enabled_none_rows wafs rs).1, (waf_enabled_none_rows wafs rs).2,
   fun t tid hres ht hmem hkeys =>
     waf_enabled_target_rows wafs rs t tid hres ht hmem hkeys⟩

/-- Snapshots for the truth-table witness: associations `"id-123"`,
`"id-456"` and present-but-empty. -/
def rX : Resource :=
  { Id := "dx", ARN := "arn:dx", WebACLId := some "id-123", Origins := [],
    c7nS3Origin := false }

/-- Snapshot associated with `"id-456"`. -/
def rY : Resource :=
  { Id := "dy", ARN := "arn:dy", WebACLId := some "id-456", Origins := [],
    c7nS3Origin := false }

/-- Snapshot with a present-but-empty association. -/
def rE : Resource :=
  { Id := "de", ARN := "arn:de", WebACLId := some "", Origins := [],
    c7nS3Origin := false }

/-- C6, witness: the four rows of the truth table evaluated on three
concrete snapshots and the example table, with the target `"acl-a"`
resolving to `"id-123"`. -/
theorem waf_enabled_truth_table_witness :
    IsWafEnabled_process exampleWafs none true [rX, rY, rE] =
      Except.ok [rX, rY] ∧
    IsWafEnabled_process exampleWafs none false [rX, rY, rE] =
      Except.ok [rE] ∧
    IsWafEnabled_process exampleWafs (some "acl-a") true [rX, rY, rE] =
      Except.ok [rX] ∧
    IsWafEnabled_process exampleWafs (some "acl-a") false [rX, rY, rE] =
      Except.ok [rY, rE] := by
  have h := waf_enabled_truth_table exampleWafs [rX, rY, rE]
  have h34 := h.2.2 "acl-a" "id-123" (by decide) (by decide) (by decide)
    (by decide)
  refine ⟨?_, ?_, ?_, ?_⟩
  · rw [h.1]; decide
  · rw [h.2.1]; decide
  · rw [h34.1]; decide
  · rw [h34.2]; decide

/-- C10, counterexample: with a valid target specified (`"acl-a"`, resolving
to `"id-123"`) and `state=true`, a snapshot that lacks the `'WebACLId'`
attribute makes `IsWafEnabled.process` raise `KeyError` instead of being
matched or excluded. -/
theorem waf_enabled_keyerror_counterexample :
    IsWafEnabled_process exampleWafs (some "acl-a") true [res1] =
      Except.error (PyErr.KeyError "WebACLId") := by
  decide

/-- C10, amended: the `waf-enabled` predicate never raises when no target
is specified (missing association attributes are read with `.get`); when a
target is specified whose resolved identifier is empty or among the known
values, it evaluates without raising provided every snapshot carries the
`'WebACLId'` attribute — a snapshot lacking the attribute raises a
key-lookup error (the counterexample). -/
theorem waf_enabled_no_raise (wafs : List Waf) (state : Bool)
    (rs : List Resource) :
    (∃ l, IsWafEnabled_process wafs none state rs = Except.ok l) ∧
    (∀ t, (dgetD (waf_name_id_map wafs) t = "" ∨
        dgetD (waf_name_id_map wafs) t ∈ dvalues (waf_name_id_map wafs)) →
      (∀ r ∈ rs, r.WebACLId ≠ none) →
      ∃ l, IsWafEnabled_process wafs (some t) state rs = Except.ok l) := by
  constructor
  · rw [IsWafEnabled_process_none]
    cases state
    · exact ⟨_, IsWafEnabled_loop_filter false none _ rs
        (fun r _ => iwBranch_false_none r)⟩
    · exact ⟨_, IsWafEnabled_loop_filter true none _ rs
        (fun r _ => iwBranch_true_none r)⟩
  · intro t hvalid hkeys
    by_cases htid : dgetD (waf_name_id_map wafs) t = ""
    · have hproc : IsWafEnabled_process wafs (some t) state rs =
          IsWafEnabled_loop state (some "") rs := by
        unfold IsWafEnabled_process
        simp only [resolveTarget, Option.map_some']
        rw [htid]
        simp [truthy]
      rw [hproc]
      exact ⟨_, IsWafEnabled_loop_filter state (some "") (fun _ => false) rs
        (fun r _ => iwBranch_empty_target state r)⟩
    · have hmem : dgetD (waf_name_id_map wafs) t ∈
          dvalues (waf_name_id_map wafs) := hvalid.resolve_left htid
      have h := waf_enabled_target_rows wafs rs t
        (dgetD (waf_name_id_map wafs) t) rfl htid hmem hkeys
      cases state
      · exact ⟨_, h.2⟩
      · exact ⟨_, h.1⟩

/-- C10, witness: the amended theorem evaluated on a snapshot that carries
the attribute, in both the target-free and the valid-target cases. -/
theorem waf_enabled_no_raise_witness :
    (∃ l, IsWafEnabled_process exampleWafs none true [rX] = Except.ok l) ∧
    (∃ l, IsWafEnabled_process exampleWafs (some "acl-a") true [rX] =
      Except.ok l) :=
  ⟨(waf_enabled_no_raise exampleWafs true [rX]).1,
   (waf_enabled_no_raise exampleWafs true [rX]).2 "acl-a" (by decide)
     (by decide)⟩

/-! ### C7 / C9 — the `check-s3-origin` filter -/

/-- On `Except`, `throw` is the `error` constructor. -/
theorem except_throw {ε α : Type} (e : ε) :
    (throw e : Except ε α) = Except.error e := rfl

/-- Binding a raised `Except` propagates the error. -/
theorem except_bind_error {ε α β : Type} (e : ε) (f : α → Except ε β) :
    ((Except.error e : Except ε α) >>= f) = Except.error e := rfl

/-- Binding a successful `Except` continues with its value. -/
theorem except_bind_ok {ε α β : Type} (a : α) (f : α → Except ε β) :
    ((Except.ok a : Except ε α) >>= f) = f a := rfl

/-- Mapping over a raised `Except` propagates the error. -/
theorem except_map_error {ε α β : Type} (e : ε) (f : α → β) :
    (f <$> (Except.error e : Except ε α)) = Except.error e := rfl

/-- On a list of origins none of which hard-fails, the inner loop returns
(without raising) the number of origins that pass the
existence-and-ownership check. -/
theorem cs3CountOrigins_ok (s3 : String → AclRes) (accounts : List String) :
    ∀ os : List Origin, (∀ o ∈ os, originHardFails s3 o = false) →
      cs3CountOrigins s3 accounts os =
        Except.ok (os.countP (originPasses s3 accounts))
  | [], _ => rfl
  | o :: os, h => by
    have hos := cs3CountOrigins_ok s3 accounts os
      (fun x hx => h x (List.mem_cons_of_mem o hx))
    have ho := h o (List.mem_cons_self o os)
    unfold cs3CountOrigins
    cases hcfg : o.hasS3OriginConfig with
    | false =>
      have hp : originPasses s3 accounts o = false := by
        simp [originPasses, hcfg]
      simp [hcfg, List.countP_cons, hp, hos]
    | true =>
      cases hs : s3 (targetBucket o.DomainName) with
      | accessDenied =>
        have hp : originPasses s3 accounts o = false := by
          simp [originPasses, hcfg, hs]
        simp [hcfg, hs, List.countP_cons, hp, hos]
      | noSuchBucket =>
        have hp : originPasses s3 accounts o = false := by
          simp [originPasses, hcfg, hs]
        simp [hcfg, hs, List.countP_cons, hp, hos]
      | otherErr c =>
        exfalso
        simp [originHardFails, hcfg, hs] at ho
      | ok owner =>
        by_cases hacc : accounts ≠ [] ∧ owner ∉ accounts
        · have hp : originPasses s3 accounts o = false := by
            simp [originPasses, hcfg, hs]
            tauto
          simp [hcfg, hs, hacc, List.countP_cons, hp, hos,
            except_bind_ok]
        · have hp : originPasses s3 accounts o = true := by
            simp [originPasses, hcfg, hs]
            tauto
          simp [hcfg, hs, hacc, List.countP_cons, hp, hos,
            except_bind_ok]

/-- If some origin of the list hard-fails, the inner loop raises a
`ClientError`. -/
theorem cs3CountOrigins_err (s3 : String → AclRes) (accounts : List String) :
    ∀ os : List Origin, (∃ o ∈ os, originHardFails s3 o = true) →
      ∃ c, cs3CountOrigins s3 accounts os =
        Except.error (PyErr.ClientError c)
  | [], h => by
    obtain ⟨o, ho, _⟩ := h
    exact absurd ho (List.not_mem_nil o)
  | o :: os, h => by
    have hrest : (∃ x ∈ os, originHardFails s3 x = true) →
        ∃ c, cs3CountOrigins s3 accounts os =
          Except.error (PyErr.ClientError c) :=
      cs3CountOrigins_err s3 accounts os
    cases hcfg : o.hasS3OriginConfig with
    | false =>
      have hx : ∃ x ∈ os, originHardFails s3 x = true := by
        obtain ⟨x, hx, hhf⟩ := h
        rcases List.mem_cons.mp hx with rfl | hx2
        · simp [originHardFails, hcfg] at hhf
        · exact ⟨x, hx2, hhf⟩
      obtain ⟨c, hc⟩ := hrest hx
      exact ⟨c, by unfold cs3CountOrigins; simp [hcfg, hc]⟩
    | true =>
      cases hs : s3 (targetBucket o.DomainName) with
      | otherErr c =>
        exact ⟨c, by unfold cs3CountOrigins; simp [hcfg, hs, except_throw]⟩
      | accessDenied =>
        have hx : ∃ x ∈ os, originHardFails s3 x = true := by
          obtain ⟨x, hx, hhf⟩ := h
          rcases List.mem_cons.mp hx with rfl | hx2
          · simp [originHardFails, hcfg, hs] at hhf
          · exact ⟨x, hx2, hhf⟩
        obtain ⟨c, hc⟩ := hrest hx
        exact ⟨c, by unfold cs3CountOrigins; simp [hcfg, hs, hc]⟩
      | noSuchBucket =>
        have hx : ∃ x ∈ os, originHardFails s3 x = true := by
          obtain ⟨x, hx, hhf⟩ := h
          rcases List.mem_cons.mp hx with rfl | hx2
          · simp [originHardFails, hcfg, hs] at hhf
          · exact ⟨x, hx2, hhf⟩
        obtain ⟨c, hc⟩ := hrest hx
        exact ⟨c, by unfold cs3CountOrigins; simp [hcfg, hs, hc]⟩
      | ok owner =>
        have hx : ∃ x ∈ os, originHardFails s3 x = true := by
          obtain ⟨x, hx, hhf⟩ := h
          rcases List.mem_cons.mp hx with rfl | hx2
          · simp [originHardFails, hcfg, hs] at hhf
          · exact ⟨x, hx2, hhf⟩
        obtain ⟨c, hc⟩ := hrest hx
        by_cases hacc : accounts ≠ [] ∧ owner ∉ accounts
        · refine ⟨c, ?_⟩
          unfold cs3CountOrigins
          simp [hcfg, hs, hacc, hc, except_bind_error]
        · refine ⟨c, ?_⟩
          unfold cs3CountOrigins
          simp [hcfg, hs, hacc, hc, except_bind_error]

/-- Whole-pass success: with no hard-failing origin anywhere, the filter
returns, for each resource in order, one marked copy per passing origin. -/
theorem CheckS3Origin_process_ok (s3 : String → AclRes)
    (accounts : List String) :
    ∀ rs : List Resource,
      (∀ r ∈ rs, ∀ o ∈ r.Origins, originHardFails s3 o = false) →
      CheckS3Origin_process s3 accounts rs =
        Except.ok (rs.flatMap (fun r =>
          List.replicate (r.Origins.countP (originPasses s3 accounts))
            { r with c7nS3Origin := true }))
  | [], _ => rfl
  | r :: rs, h => by
    have hr := cs3CountOrigins_ok s3 accounts r.Origins
      (h r (List.mem_cons_self r rs))
    have hrs := CheckS3Origin_process_ok s3 accounts rs
      (fun x hx => h x (List.mem_cons_of_mem r hx))
    unfold CheckS3Origin_process
    rw [hr, hrs]
    rfl

/-- Whole-pass failure: if any origin of any resource hard-fails, the
filter pass raises a `ClientError` (no result list is produced). -/
theorem CheckS3Origin_process_err (s3 : String → AclRes)
    (accounts : List String) :
    ∀ rs : List Resource,
      (∃ r ∈ rs, ∃ o ∈ r.Origins, originHardFails s3 o = true) →
      ∃ c, CheckS3Origin_process s3 accounts rs =
        Except.error (PyErr.ClientError c)
  | [], h => by
    obtain ⟨r, hr, _⟩ := h
    exact absurd hr (List.not_mem_nil r)
  | r :: rs, h => by
    by_cases hfirst : ∃ o ∈ r.Origins, originHardFails s3 o = true
    · obtain ⟨c, hc⟩ := cs3CountOrigins_err s3 accounts r.Origins hfirst
      refine ⟨c, ?_⟩
      unfold CheckS3Origin_process
      simp [hc, except_bind_error]
    · have hok := cs3CountOrigins_ok s3 accounts r.Origins (fun o ho => by
        rcases hb : originHardFails s3 o with _ | _
        · rfl
        · exact absurd ⟨o, ho, hb⟩ hfirst)
      have hx : ∃ x ∈ rs, ∃ o ∈ x.Origins, originHardFails s3 o = true := by
        obtain ⟨x, hx, ho⟩ := h
        rcases List.mem_cons.mp hx with rfl | hx2
        · exact absurd ho hfirst
        · exact ⟨x, hx2, ho⟩
      obtain ⟨c, hc⟩ := CheckS3Origin_process_err s3 accounts rs hx
      refine ⟨c, ?_⟩
      unfold CheckS3Origin_process
      simp [hok, hc, except_bind_ok, except_bind_error, except_map_error]

/-- C7: in the dependency-existence filter, an origin passes exactly when
its bucket-ACL check succeeds and — when a non-empty authorized-owner set
is supplied — the owner is in the set (so an `AccessDenied` or
`NoSuchBucket` sub-reference, or an out-of-set owner, is excluded from the
positive match without an exception, and the other resources are still
processed: the pass returns the per-origin counts for everyone); and if
any sub-reference fails with any other error, the whole filter pass raises
and produces no result. -/
theorem check_s3_origin_exclusion (s3 : String → AclRes)
    (accounts : List String) (rs : List Resource) :
    (∀ o : Origin, originPasses s3 accounts o = true ↔
      (o.hasS3OriginConfig = true ∧ ∃ owner,
        s3 (targetBucket o.DomainName) = AclRes.ok owner ∧
        (accounts = [] ∨ owner ∈ accounts))) ∧
    ((∀ r ∈ rs, ∀ o ∈ r.Origins, originHardFails s3 o = false) →
      CheckS3Origin_process s3 accounts rs =
        Except.ok (rs.flatMap (fun r =>
          List.replicate (r.Origins.countP (originPasses s3 accounts))
            { r with c7nS3Origin := true }))) ∧
    ((∃ r ∈ rs, ∃ o ∈ r.Origins, originHardFails s3 o = true) →
      ∃ c, CheckS3Origin_process s3 accounts rs =
        Except.error (PyErr.ClientError c)) := by
  refine ⟨?_, CheckS3Origin_process_ok s3 accounts rs,
    CheckS3Origin_process_err s3 accounts rs⟩
  intro o
  unfold originPasses
  cases hcfg : o.hasS3OriginConfig with
  | false => simp
  | true =>
    cases hs : s3 (targetBucket o.DomainName) with
    | ok owner => simp [or_iff_not_imp_left]
    | accessDenied => simp
    | noSuchBucket => simp
    | otherErr c => simp

/-- An S3 stub for the C7 witness: bucket `b1` is access-denied, `b2`
exists with owner `own1`, every other bucket exists with owner `own2`. -/
def s3W : String → AclRes := fun b =>
  if b = "b1" then AclRes.accessDenied
  else if b = "b2" then AclRes.ok "own1"
  else AclRes.ok "own2"

/-- A distribution with two S3 origins, one access-denied (`b1`) and one
passing (`b2`). -/
def rr1 : Resource :=
  { Id := "r1", ARN := "arn:r1", WebACLId := none,
    Origins := [{ hasS3OriginConfig := true,
                  DomainName := "b1.s3.amazonaws.com" },
                { hasS3OriginConfig := true,
                  DomainName := "b2.s3.amazonaws.com" }],
    c7nS3Origin := false }

/-- A distribution with one S3 origin whose bucket exists but is owned
outside the authorized set. -/
def rr2 : Resource :=
  { Id := "r2", ARN := "arn:r2", WebACLId := none,
    Origins := [{ hasS3OriginConfig := true,
                  DomainName := "b3.s3.amazonaws.com" }],
    c7nS3Origin := false }

/-- C7, witness: with owner set `["own1"]`, the access-denied sub-reference
of `rr1` is excluded but its passing sub-reference still matches the
resource; `rr2`'s out-of-set owner excludes it entirely; no exception is
raised and both resources were processed. -/
theorem check_s3_origin_exclusion_witness :
    CheckS3Origin_process s3W ["own1"] [rr1, rr2] =
      Except.ok [{ rr1 with c7nS3Origin := true }] := by
  rw [(check_s3_origin_exclusion s3W ["own1"] [rr1, rr2]).2.1 (by decide)]
  decide

/-- An S3 stub for which every bucket exists with owner `own1`. -/
def s3AllOk : String → AclRes := fun _ => AclRes.ok "own1"

/-- A distribution with two S3 origins that both pass the
existence-and-ownership check. -/
def resDup : Resource :=
  { Id := "d7", ARN := "arn:d7", WebACLId := none,
    Origins := [{ hasS3OriginConfig := true,
                  DomainName := "b1.s3.amazonaws.com" },
                { hasS3OriginConfig := true,
                  DomainName := "b2.s3.amazonaws.com" }],
    c7nS3Origin := false }

/-- C9, counterexample: a resource with two passing S3 origins occurs twice
in the filter's result — `results.append(r)` runs once per passing origin,
so the output is not duplicate-free. -/
theorem duplicate_resource_counterexample :
    CheckS3Origin_process s3AllOk [] [resDup] =
      Except.ok [{ resDup with c7nS3Origin := true },
                 { resDup with c7nS3Origin := true }] ∧
    ([{ resDup with c7nS3Origin := true },
      { resDup with c7nS3Origin := true }] : List Resource).count
        { resDup with c7nS3Origin := true } = 2 := by
  decide

/-- C9, amended: the filter's result contains each resource once per
passing sub-reference, not at most once: a resource none of whose origins
hard-fails occurs exactly `countP originPasses` times (so a resource with
several passing S3 origins is duplicated that many times). -/
theorem check_s3_origin_multiplicity (s3 : String → AclRes)
    (accounts : List String) (r : Resource)
    (h : ∀ o ∈ r.Origins, originHardFails s3 o = false) :
    CheckS3Origin_process s3 accounts [r] =
      Except.ok (List.replicate
        (r.Origins.countP (originPasses s3 accounts))
        { r with c7nS3Origin := true }) := by
  have hall : ∀ x ∈ [r], ∀ o ∈ x.Origins, originHardFails s3 o = false := by
    intro x hx
    rcases List.mem_singleton.mp hx with rfl
    exact h
  rw [CheckS3Origin_process_ok s3 accounts [r] hall]
  simp

/-- C9, witness: the amended theorem evaluated on the two-passing-origins
resource: it occurs exactly twice. -/
theorem check_s3_origin_multiplicity_witness :
    CheckS3Origin_process s3AllOk [] [resDup] =
      Except.ok (List.replicate 2 { resDup with c7nS3Origin := true }) := by
  have h := check_s3_origin_multiplicity s3AllOk [] resDup (by decide)
  rw [h]
  decide

end CloudFront
